import Mathlib

/-
Shallow embedding of ext/stacks/stacks.c (scout_apm_ruby native sampling
extension), the RUBY_INTERNAL_EVENT_NEWOBJ branch, as compiled on an LP64
glibc platform: `int` is 32-bit signed, `uint_fast16_t` and `uint_fast32_t`
are 64-bit unsigned (so the atomics `_start_frame_index`,
`_start_trace_index`, `_cur_traces_num`, `_skipped_in_gc`,
`_skipped_in_signal_handler` hold 64-bit unsigned values and C's usual
arithmetic conversions promote `int` operands to 64-bit unsigned in mixed
expressions).

The Ruby runtime collaborators (rb_profile_frames, rb_during_gc,
rb_gc_register_address / rb_gc_unregister_address, pthread registry) are
modelled as an explicit environment / explicit state fields.
-/

namespace ScoutStacks

/-- BUF_SIZE from stacks.c (#define BUF_SIZE 512): frame/line buffer bound. -/
def BUF_SIZE : Nat := 512

/-- MAX_TRACES from stacks.c (#define MAX_TRACES 2000): trace buffer capacity. -/
def MAX_TRACES : Nat := 2000

/-- Modulus of the 64-bit unsigned atomics on LP64: 2^64. -/
def U64 : Nat := 2 ^ 64

/-- Bound one past INT_MAX: NUM2INT only yields values in [-2^31, 2^31). -/
def INT_BOUND : Nat := 2 ^ 31

/-- Reinterpret the low 32 bits of a natural number as a signed C `int`
(the conversion performed when a 64-bit unsigned value is assigned to the
`int num_tracelines` field). -/
def toInt32 (x : Nat) : Int :=
  if x % 2 ^ 32 < 2 ^ 31 then ((x % 2 ^ 32 : Nat) : Int)
  else ((x % 2 ^ 32 : Nat) : Int) - 2 ^ 32

/-- Reinterpret the low 64 bits of a natural number as a signed C `long`
(the conversion performed when the 64-bit unsigned difference is passed to
rb_ary_new2, whose parameter is `long`). -/
def toInt64 (x : Nat) : Int :=
  if x % 2 ^ 64 < 2 ^ 63 then ((x % 2 ^ 64 : Nat) : Int)
  else ((x % 2 ^ 64 : Nat) : Int) - 2 ^ 64

/-- Largest capacity rb_ary_new2 accepts on LP64:
ARY_MAX_SIZE = LONG_MAX / sizeof(VALUE) = (2^63 − 1) / 8. A capacity that
is negative, or exceeds this, makes rb_ary_new2 raise ArgumentError. -/
def ARY_MAX_SIZE : Int := (2 ^ 63 - 1) / 8

/-- Overwrite the initial segment of `old` with `new`, keeping the tail of
`old` beyond `new.length`: how rb_profile_frames writes `num_frames` entries
into a fixed C array whose remaining entries keep their previous contents. -/
def overwriteFirst {α : Type} (new old : List α) : List α :=
  new ++ old.drop new.length

/-- struct c_trace from stacks.c: one captured stack snapshot slot.
`num_tracelines` is a C `int` (signed); frame references (`VALUE`) are
opaque and modelled as `Nat`; source lines are C `int`s. -/
structure CTrace where
  num_tracelines : Int
  frames_buf : List Nat
  lines_buf : List Int
deriving Repr, DecidableEq, Inhabited

/-- The thread-local state of one registered thread: the `__thread`
variables of stacks.c plus the resource facts the claims need
(whether the GC keep-alive hook `_gc_hook` is registered, whether the
`_traces` allocation is live, and how many pthread cleanup handlers have
been pushed for this thread). -/
structure ThreadState where
  ok_to_sample : Bool
  in_signal_handler : Bool
  start_frame_index : Nat
  start_trace_index : Nat
  cur_traces_num : Nat
  skipped_in_gc : Nat
  skipped_in_signal_handler : Nat
  traces : List CTrace
  gc_hook_registered : Bool
  traces_allocated : Bool
  cleanup_handlers_pushed : Nat
deriving Repr, DecidableEq, Inhabited

/-- The runtime environment at one capture attempt: whether the collaborator
reports GC in progress (rb_during_gc) and the calling thread's current call
stack as (frame reference, line) pairs, which rb_profile_frames surfaces. -/
structure Env where
  during_gc : Bool
  stack : List (Nat × Int)
deriving Repr, DecidableEq, Inhabited

/-- The frames rb_profile_frames(0, BUF_SIZE, ...) actually writes: at most
BUF_SIZE entries of the current stack. -/
def captured (e : Env) : List (Nat × Int) := e.stack.take BUF_SIZE

/-- The return value of rb_profile_frames: the count of frames captured. -/
def num_frames (e : Env) : Nat := (captured e).length

/-- scout_record_sample from stacks.c (lines 387-410).
Bails if `_ok_to_sample` is off; during GC increments `_skipped_in_gc`;
below capacity calls rb_profile_frames into slot `_cur_traces_num`
(overwriting that slot's buffers whether or not the sample is accepted),
and accepts when `num_frames - start_frame_index > 2` — computed, as in C,
in 64-bit unsigned arithmetic, so the difference wraps modulo 2^64; on
acceptance stores `num_frames - start_frame_index - 2` (64-bit unsigned,
then narrowed to the signed `int` field) and fetch-adds `_cur_traces_num`. -/
def scout_record_sample (env : Env) (s : ThreadState) : ThreadState :=
  if s.ok_to_sample = false then s
  else if env.during_gc then
    { s with skipped_in_gc := s.skipped_in_gc + 1 }
  else
    let cur := s.cur_traces_num
    let sfi := s.start_frame_index
    if cur < MAX_TRACES then
      let cap := captured env
      let nf := cap.length
      let slot := s.traces.getD cur default
      let written : CTrace :=
        { num_tracelines := slot.num_tracelines
          frames_buf := overwriteFirst (cap.map Prod.fst) slot.frames_buf
          lines_buf := overwriteFirst (cap.map Prod.snd) slot.lines_buf }
      if (U64 + nf - sfi) % U64 > 2 then
        { s with
            traces := s.traces.set cur
              { written with
                  num_tracelines := toInt32 ((2 * U64 + nf - sfi - 2) % U64) }
            cur_traces_num := cur + 1 }
      else
        { s with traces := s.traces.set cur written }
    else s

/-- scout_profile_broadcast_signal_handler from stacks.c (lines 357-372):
the per-thread SIGVTALRM handler. -/
def scout_profile_broadcast_signal_handler (env : Env) (s : ThreadState) :
    ThreadState :=
  if s.ok_to_sample = false then s
  else if s.in_signal_handler = true then
    { s with skipped_in_signal_handler := s.skipped_in_signal_handler + 1 }
  else
    let s1 := { s with in_signal_handler := true }
    let s2 := scout_record_sample env s1
    { s2 with in_signal_handler := false }

/-- The (frame, line) pairs one stored trace contributes to the drain result:
entries 0 .. num_tracelines-1 of its buffers (nothing when
num_tracelines ≤ 0, since the C loop bound is a signed comparison). -/
def trace_entries (t : CTrace) : List (Nat × Int) :=
  (List.range t.num_tracelines.toNat).map
    (fun n => (t.frames_buf.getD n 0, t.lines_buf.getD n 0))

/-- rb_scout_profile_frames from stacks.c (lines 416-447), the drain: reads
`_cur_traces_num` and `_start_trace_index`; when their 64-bit unsigned
difference is nonzero it calls rb_ary_new2 with that difference converted
to `long` — rb_ary_new2 (ary_new) raises ArgumentError when the capacity
is negative or exceeds ARY_MAX_SIZE, a raise that longjmps out of the
function BEFORE the store at line 445, leaving `_cur_traces_num`
unchanged (modelled as `Except.error ()`); otherwise it walks indices
start..cur-1 collecting each slot with num_tracelines > 0 as its
(frame, line) pairs, then stores `_cur_traces_num := _start_trace_index`
and returns the collected traces with the new state. -/
def rb_scout_profile_frames (s : ThreadState) :
    Except Unit (List (List (Nat × Int)) × ThreadState) :=
  let cur := s.cur_traces_num
  let start := s.start_trace_index
  if (U64 + cur - start) % U64 > 0 then
    let capa := toInt64 ((U64 + cur - start) % U64)
    if capa < 0 ∨ capa > ARY_MAX_SIZE then Except.error ()
    else
      let traces :=
        (List.range' start (cur - start)).filterMap (fun i =>
          let t := s.traces.getD i default
          if t.num_tracelines > 0 then some (trace_entries t) else none)
      Except.ok (traces, { s with cur_traces_num := start })
  else Except.ok ([], { s with cur_traces_num := start })

/-- rb_scout_start_sampling (lines 456-461): sets `_ok_to_sample`. -/
def rb_scout_start_sampling (s : ThreadState) : Bool × ThreadState :=
  (true, { s with ok_to_sample := true })

/-- rb_scout_stop_sampling (lines 464-475): clears `_ok_to_sample`; when
`reset` is Ruby `true` also zeroes `_cur_traces_num`, `_skipped_in_gc`,
`_skipped_in_signal_handler`. Always returns Qtrue. -/
def rb_scout_stop_sampling (reset : Bool) (s : ThreadState) :
    Bool × ThreadState :=
  let s1 := { s with ok_to_sample := false }
  if reset then
    (true, { s1 with
               cur_traces_num := 0
               skipped_in_gc := 0
               skipped_in_signal_handler := 0 })
  else (true, s1)

/-- rb_scout_update_indexes (lines 478-484): stores the NUM2INT-converted
arguments into `_start_trace_index` / `_start_frame_index` with no bounds
validation (NUM2INT itself only guarantees the value fits in a C `int`).
Always returns Qtrue. -/
def rb_scout_update_indexes (frame_index trace_index : Nat)
    (s : ThreadState) : Bool × ThreadState :=
  (true, { s with
             start_trace_index := trace_index
             start_frame_index := frame_index })

/-- rb_scout_current_trace_index (lines 487-491). -/
def rb_scout_current_trace_index (s : ThreadState) : Nat :=
  s.cur_traces_num

/-- rb_scout_current_frame_index (lines 494-506): one live
rb_profile_frames probe; returns the depth minus one, or 0 at depth ≤ 1. -/
def rb_scout_current_frame_index (env : Env) : Nat :=
  if num_frames env > 1 then num_frames env - 1 else 0

/-- Process-wide state: the focus thread's locals, the profiled-thread
linked list (thread handles, newest first), and the lifecycle globals
`scout_profiling_installed`, `scout_profiling_running`, plus whether the
background timer thread is alive and the SIGVTALRM handler registered. -/
structure SysState where
  th : ThreadState
  registry : List Nat
  installed : Bool
  profiling_running : Bool
  timer_running : Bool
  handler_registered : Bool
deriving Repr, DecidableEq, Inhabited

/-- Remove the first occurrence of a thread handle, as the linked-list walk
in remove_profiled_thread does (pthread_equal, unlink, free, break). -/
def removeFirst (tid : Nat) : List Nat → List Nat
  | [] => []
  | x :: xs => if x = tid then xs else x :: removeFirst tid xs

/-- init_thread_vars from stacks.c (lines 334-351): clears the sampling
flags, indexes and count, allocates `_traces` (ALLOC_N — contents modelled
as the default slots; entries at index ≥ `_cur_traces_num` are never read
by a consumer), wraps and registers the `_gc_hook` keep-alive. The
`pthread_cleanup_push(thread_cleanup_handler, NULL)` call at line 348 is
commented out in the source, so no exit-path cleanup handler is pushed:
`cleanup_handlers_pushed` is left unchanged. -/
def init_thread_vars (s : ThreadState) : ThreadState :=
  { s with
      ok_to_sample := false
      in_signal_handler := false
      start_frame_index := 0
      start_trace_index := 0
      cur_traces_num := 0
      traces := List.replicate MAX_TRACES default
      gc_hook_registered := true
      traces_allocated := true }

/-- rb_scout_add_profiled_thread (lines 124-143): init_thread_vars, then
push the calling thread's handle at the head of the linked list (no
duplicate check). Returns Qtrue. -/
def rb_scout_add_profiled_thread (tid : Nat) (st : SysState) :
    Bool × SysState :=
  let th := init_thread_vars st.th
  (true, { st with th := th, registry := tid :: st.registry })

/-- remove_profiled_thread from stacks.c (lines 149-178): clears
`_ok_to_sample`, unlinks the first matching node (no-op on the list when
absent), then unconditionally unregisters the `_gc_hook` keep-alive and
xfrees the traces allocation. The C function returns 0 regardless. -/
def remove_profiled_thread (tid : Nat) (st : SysState) : SysState :=
  let th1 := { st.th with ok_to_sample := false }
  let reg := removeFirst tid st.registry
  { st with
      th := { th1 with gc_hook_registered := false, traces_allocated := false }
      registry := reg }

/-- rb_scout_remove_profiled_thread (lines 184-188): proxies to
remove_profiled_thread and always returns Qtrue. -/
def rb_scout_remove_profiled_thread (tid : Nat) (st : SysState) :
    Bool × SysState :=
  (true, remove_profiled_thread tid st)

/-- rb_scout_install_profiling (lines 293-316): if already installed,
returns Qfalse and changes nothing; otherwise starts the background timer
thread, registers the SIGVTALRM handler, marks installed, returns Qtrue. -/
def rb_scout_install_profiling (st : SysState) : Bool × SysState :=
  if st.installed then (false, st)
  else
    (true, { st with
               installed := true
               timer_running := true
               handler_registered := true })

/-- rb_scout_uninstall_profiling (lines 284-291): pthread_cancel of the
background timer thread. Returns Qnil. -/
def rb_scout_uninstall_profiling (st : SysState) : SysState :=
  { st with timer_running := false }

/-- rb_scout_start_profiling (lines 269-280): marks the subsystem running
(idempotent), returns Qtrue. -/
def rb_scout_start_profiling (st : SysState) : Bool × SysState :=
  if st.profiling_running then (true, st)
  else (true, { st with profiling_running := true })

/-- The public method surface of the extension (Init_stacks, lines
515-548), as invoked by the focus thread. klass_for_frame and the two
index getters are read-only. -/
inductive Op where
  | install
  | uninstall
  | start
  | add_profiled_thread (tid : Nat)
  | remove_profiled_thread (tid : Nat)
  | start_sampling
  | stop_sampling (reset : Bool)
  | update_indexes (f t : Nat)
  | current_trace_index
  | current_frame_index
  | profile_frames
  | klass_for_frame
deriving Repr, DecidableEq

/-- State effect of each public operation (return values dropped). -/
def step (op : Op) (st : SysState) : SysState :=
  match op with
  | .install => (rb_scout_install_profiling st).2
  | .uninstall => rb_scout_uninstall_profiling st
  | .start => (rb_scout_start_profiling st).2
  | .add_profiled_thread tid => (rb_scout_add_profiled_thread tid st).2
  | .remove_profiled_thread tid => (rb_scout_remove_profiled_thread tid st).2
  | .start_sampling => { st with th := (rb_scout_start_sampling st.th).2 }
  | .stop_sampling r => { st with th := (rb_scout_stop_sampling r st.th).2 }
  | .update_indexes f t =>
      { st with th := (rb_scout_update_indexes f t st.th).2 }
  | .profile_frames =>
      match rb_scout_profile_frames st.th with
      | .ok (_, th) => { st with th := th }
      | .error _ => st
  | .current_trace_index => st
  | .current_frame_index => st
  | .klass_for_frame => st

/-- The public operations whose step can decrease `_cur_traces_num`:
the drain, stop_sampling with reset, and (re-)registration, which
re-initializes the thread locals to zero. -/
def mayShrink : Op → Bool
  | .profile_frames => true
  | .stop_sampling true => true
  | .add_profiled_thread _ => true
  | _ => false

/-- Thread-local state at thread start: every atomic zeroed (the
ATOMIC_VAR_INIT / zero defaults of the `__thread` variables), buffer not
yet allocated, keep-alive not registered, no cleanup handler pushed. -/
def baseTh : ThreadState :=
  { ok_to_sample := false
    in_signal_handler := false
    start_frame_index := 0
    start_trace_index := 0
    cur_traces_num := 0
    skipped_in_gc := 0
    skipped_in_signal_handler := 0
    traces := []
    gc_hook_registered := false
    traces_allocated := false
    cleanup_handlers_pushed := 0 }

/-- Process start: fresh thread-locals, empty registry, nothing installed. -/
def initialSysState : SysState :=
  { th := baseTh
    registry := []
    installed := false
    profiling_running := false
    timer_running := false
    handler_registered := false }

/-- Environment with GC idle and an empty call stack. -/
def gcFreeEnv : Env := { during_gc := false, stack := [] }

/-- Environment with GC in progress. -/
def gcEnv : Env := { during_gc := true, stack := [] }

/-- Environment with GC idle and a 6-frame call stack. -/
def sixFrameEnv : Env :=
  { during_gc := false
    stack := [(1, 1), (2, 2), (3, 3), (4, 4), (5, 5), (6, 6)] }

/-- Thread state with sampling on and `_start_frame_index` = 5 while the
stack is empty: exercises the unsigned wrap of the acceptance test. -/
def cexC1Th : ThreadState :=
  { baseTh with ok_to_sample := true, start_frame_index := 5 }

/-- Registered, sampling-enabled thread state with a fully allocated
trace buffer (as left by init_thread_vars). -/
def wC1Th : ThreadState :=
  { init_thread_vars baseTh with ok_to_sample := true }

/-- Thread state with an empty buffer but `_start_trace_index` = 5, as
update_indexes(·, 5) leaves it: the drain's unsigned difference wraps. -/
def cexC2Th : ThreadState := { baseTh with start_trace_index := 5 }

/-- Thread state holding one captured trace with the window at 0. -/
def wC10Th : ThreadState := { baseTh with cur_traces_num := 1 }

/-- Thread state holding two captured traces, the second empty. -/
def wC2Th : ThreadState :=
  { baseTh with
      cur_traces_num := 2
      traces :=
        [ { num_tracelines := 1, frames_buf := [11], lines_buf := [7] },
          { num_tracelines := 0, frames_buf := [12], lines_buf := [8] } ] }

/-- Thread state at capacity (`_cur_traces_num` = MAX_TRACES) with
sampling enabled. -/
def cexC3Th : ThreadState :=
  { baseTh with ok_to_sample := true, cur_traces_num := MAX_TRACES }

/-- System state whose registry holds thread 7 only, thread-locals live. -/
def cexC4Sys : SysState :=
  { initialSysState with
      th := { baseTh with
                ok_to_sample := true
                gc_hook_registered := true
                traces_allocated := true }
      registry := [7]
      installed := true }

/-- System state whose focus thread holds one captured trace. -/
def cexC5Sys : SysState :=
  { initialSysState with th := { baseTh with cur_traces_num := 1 } }

/-- Thread state with sampling on and nonzero count and skip counters. -/
def wC6Th : ThreadState :=
  { baseTh with
      ok_to_sample := true
      cur_traces_num := 3
      skipped_in_gc := 2
      skipped_in_signal_handler := 1 }

/-- Thread state with sampling on and the reentrancy guard held. -/
def wC7Th : ThreadState :=
  { baseTh with ok_to_sample := true, in_signal_handler := true }

/-- Thread state with sampling on and the reentrancy guard free. -/
def wC7bTh : ThreadState := { baseTh with ok_to_sample := true }

/-- System state already installed. -/
def wC8Sys : SysState := { initialSysState with installed := true }

/-- Contents rb_profile_frames leaves in the target slot regardless of
acceptance: captured frames and lines overwrite the slot's buffers, the
previous num_tracelines still in place. -/
def written_slot (env : Env) (s : ThreadState) : CTrace :=
  { num_tracelines := (s.traces.getD s.cur_traces_num default).num_tracelines
    frames_buf := overwriteFirst ((captured env).map Prod.fst)
      (s.traces.getD s.cur_traces_num default).frames_buf
    lines_buf := overwriteFirst ((captured env).map Prod.snd)
      (s.traces.getD s.cur_traces_num default).lines_buf }

/-- Collecting the positive slots of a list by filterMap agrees with
filter-then-map. -/
theorem drain_collect (g : Nat → CTrace) (l : List Nat) :
    l.filterMap (fun i =>
        if (g i).num_tracelines > 0 then some (trace_entries (g i)) else none)
      = (((l.map g).filter (fun t => 0 < t.num_tracelines)).map
          trace_entries) := by
  induction l with
  | nil => rfl
  | cons a l ih =>
    by_cases h : (g a).num_tracelines > 0 <;>
      simp [List.filterMap_cons, List.filter_cons, h, ih]

/-- The drain raises (rb_ary_new2 receives a negative long) whenever
`_start_trace_index` exceeds `_cur_traces_num`, for any start index the
NUM2INT conversion in update_indexes can store. -/
theorem drain_raises (s : ThreadState)
    (hs : s.start_trace_index < INT_BOUND)
    (hgt : s.cur_traces_num < s.start_trace_index) :
    rb_scout_profile_frames s = Except.error () := by
  have hU : U64 = 18446744073709551616 := by norm_num [U64]
  have hI : s.start_trace_index < 2147483648 := by
    have h := hs
    rw [show INT_BOUND = 2147483648 from by norm_num [INT_BOUND]] at h
    exact h
  have hpos : (U64 + s.cur_traces_num - s.start_trace_index) % U64 > 0 := by
    rw [hU]; omega
  have hneg :
      toInt64 ((U64 + s.cur_traces_num - s.start_trace_index) % U64) < 0 := by
    simp only [toInt64, hU]
    split <;> omega
  simp only [rb_scout_profile_frames]
  rw [if_pos hpos, if_pos (Or.inl hneg)]

/-- Every run of the drain either raises, or returns with
`_cur_traces_num` stored to `_start_trace_index` and nothing else of the
thread state changed. -/
theorem profile_frames_state (s : ThreadState) :
    rb_scout_profile_frames s = Except.error ()
    ∨ ∃ l, rb_scout_profile_frames s
        = Except.ok (l, { s with cur_traces_num := s.start_trace_index }) := by
  simp only [rb_scout_profile_frames]
  split
  · split
    · exact Or.inl rfl
    · exact Or.inr ⟨_, rfl⟩
  · exact Or.inr ⟨_, rfl⟩

/-- Reading back an in-range set element with getD. -/
theorem getD_set_self {α : Type} :
    ∀ (l : List α) (n : Nat) (a d : α), n < l.length →
      (l.set n a).getD n d = a
  | _ :: _, 0, _, _, _ => rfl
  | _ :: xs, n + 1, a, d, h =>
    getD_set_self xs n a d (by simpa using h)

/-- Unfolding of scout_record_sample on the sampling-enabled, GC-idle,
below-capacity path: everything reduces to the acceptance test. -/
theorem record_sample_open (env : Env) (s : ThreadState)
    (hok : s.ok_to_sample = true) (hgc : env.during_gc = false)
    (hcap : s.cur_traces_num < MAX_TRACES) :
    scout_record_sample env s
      = if (U64 + num_frames env - s.start_frame_index) % U64 > 2 then
          { s with
              traces := s.traces.set s.cur_traces_num
                ({ written_slot env s with
                     num_tracelines :=
                       toInt32 ((2 * U64 + num_frames env
                         - s.start_frame_index - 2) % U64) })
              cur_traces_num := s.cur_traces_num + 1 }
        else
          { s with
              traces := s.traces.set s.cur_traces_num (written_slot env s) } := by
  simp only [scout_record_sample]
  rw [if_neg (by simp [hok]), if_neg (by simp [hgc]), if_pos hcap]
  rfl

/-- One capture attempt never pushes `_cur_traces_num` past MAX_TRACES. -/
theorem record_cap (env : Env) (s : ThreadState)
    (h : s.cur_traces_num ≤ MAX_TRACES) :
    (scout_record_sample env s).cur_traces_num ≤ MAX_TRACES := by
  simp only [scout_record_sample]
  split
  · exact h
  split
  · exact h
  split
  next hlt =>
    split
    · show s.cur_traces_num + 1 ≤ MAX_TRACES
      omega
    · exact h
  next hge => exact h

/-- Any sequence of capture attempts keeps `_cur_traces_num` ≤ MAX_TRACES. -/
theorem foldl_record_cap (envs : List Env) :
    ∀ s : ThreadState, s.cur_traces_num ≤ MAX_TRACES →
      (envs.foldl (fun st e => scout_record_sample e st)
          s).cur_traces_num ≤ MAX_TRACES := by
  induction envs with
  | nil => intro s h; exact h
  | cons e es ih => intro s h; exact ih _ (record_cap e s h)

/-- C2 counterexample: on a buffer state with trace_count = 0 and
start_trace_index = 5 (reachable via update_indexes), the drain does not
return the traces of the (empty) window and does not set trace_count to
start_trace_index: the wrapped unsigned difference is passed to
rb_ary_new2 as a negative long, which raises ArgumentError before the
store, so the call produces no return value at all. -/
theorem C2_counterexample :
    cexC2Th.cur_traces_num = 0
    ∧ cexC2Th.start_trace_index = 5
    ∧ rb_scout_profile_frames cexC2Th = Except.error () :=
  ⟨rfl, rfl, rfl⟩

/-- C2 (amended): for every buffer state whose trace_count and
start_trace_index hold values the code can store in them (below 2^31):
when start_trace_index ≤ trace_count, drain returns exactly the traces
with index in [start_trace_index, trace_count) whose num_lines > 0, in
capture order, each trace as the list of its (frame_reference, line)
pairs, and afterwards trace_count equals start_trace_index; when
start_trace_index > trace_count, drain raises ArgumentError
(rb_ary_new2 gets a negative capacity) and leaves trace_count unchanged
instead of resetting it. -/
theorem C2_drain_exact (s : ThreadState)
    (hc : s.cur_traces_num < INT_BOUND)
    (hs : s.start_trace_index < INT_BOUND) :
    (s.start_trace_index ≤ s.cur_traces_num →
      rb_scout_profile_frames s
        = Except.ok
            (((((List.range' s.start_trace_index
                   (s.cur_traces_num - s.start_trace_index)).map
                     (fun i => s.traces.getD i default)).filter
                       (fun t => 0 < t.num_tracelines)).map trace_entries),
             { s with cur_traces_num := s.start_trace_index }))
    ∧ (s.cur_traces_num < s.start_trace_index →
      rb_scout_profile_frames s = Except.error ()) := by
  have hU : U64 = 18446744073709551616 := by norm_num [U64]
  have hIeq : INT_BOUND = 2147483648 := by norm_num [INT_BOUND]
  rw [hIeq] at hc hs
  refine ⟨?_, fun hgt => drain_raises s (by rw [hIeq]; exact hs) hgt⟩
  intro hle
  rcases Nat.eq_or_lt_of_le hle with heq | hlt
  · have h0 : ¬ ((U64 + s.cur_traces_num - s.start_trace_index) % U64 > 0) := by
      rw [hU]; omega
    simp only [rb_scout_profile_frames]
    rw [if_neg h0]
    have hz : s.cur_traces_num - s.start_trace_index = 0 := by omega
    rw [hz]
    simp [List.range']
  · have hpos : (U64 + s.cur_traces_num - s.start_trace_index) % U64 > 0 := by
      rw [hU]; omega
    have hA : ARY_MAX_SIZE = 1152921504606846975 := by
      norm_num [ARY_MAX_SIZE]
    have hok2 :
        ¬ (toInt64 ((U64 + s.cur_traces_num - s.start_trace_index) % U64) < 0
          ∨ toInt64 ((U64 + s.cur_traces_num - s.start_trace_index) % U64)
              > ARY_MAX_SIZE) := by
      simp only [toInt64, hU, hA]
      split <;> omega
    simp only [rb_scout_profile_frames]
    rw [if_pos hpos, if_neg hok2]
    rw [drain_collect]

/-- Witness for C2 (amended): a concrete two-trace buffer drains to its
window, and the wrapped window raises. -/
theorem C2_witness :
    rb_scout_profile_frames wC2Th
      = Except.ok
          (((((List.range' wC2Th.start_trace_index
                 (wC2Th.cur_traces_num - wC2Th.start_trace_index)).map
                   (fun i => wC2Th.traces.getD i default)).filter
                     (fun t => 0 < t.num_tracelines)).map trace_entries),
           { wC2Th with cur_traces_num := wC2Th.start_trace_index }) :=
  (C2_drain_exact wC2Th (by decide) (by decide)).1 (by decide)

/-- C1 counterexample: with sampling enabled, no GC, an empty buffer and
`_start_frame_index` = 5, a capture of 0 frames has
frames − start_frame_index = −5, which does not exceed 2, yet the C
comparison runs in 64-bit unsigned arithmetic, wraps, and the sample is
accepted (trace_count is incremented), refuting the claimed iff. -/
theorem C1_counterexample :
    cexC1Th.ok_to_sample = true
    ∧ gcFreeEnv.during_gc = false
    ∧ cexC1Th.cur_traces_num < MAX_TRACES
    ∧ (num_frames gcFreeEnv : Int) - (cexC1Th.start_frame_index : Int) ≤ 2
    ∧ (scout_record_sample gcFreeEnv cexC1Th).cur_traces_num
        = cexC1Th.cur_traces_num + 1 := by
  refine ⟨rfl, rfl, by decide, by decide, ?_⟩
  decide

/-- C1 (amended): for a capture attempt with sampling enabled: during GC
nothing is stored and skipped_during_gc increments by exactly one;
otherwise, below capacity, the sample is accepted iff the 64-bit unsigned
difference (frames − start_frame_index) mod 2^64 exceeds 2, in which case
trace_count increments by exactly one and the stored num_lines is the
signed-int narrowing of (frames − start_frame_index − 2) mod 2^64; in
particular whenever start_frame_index ≤ frames this is acceptance iff
frames − start_frame_index > 2 with stored num_lines
= frames − start_frame_index − 2, exactly as the original claim says. -/
theorem C1_amended_accept (env : Env) (s : ThreadState)
    (hok : s.ok_to_sample = true)
    (hsfi : s.start_frame_index < U64)
    (hlen : s.traces.length = MAX_TRACES) :
    (env.during_gc = true →
       scout_record_sample env s
         = { s with skipped_in_gc := s.skipped_in_gc + 1 })
    ∧ (env.during_gc = false → s.cur_traces_num < MAX_TRACES →
        (((scout_record_sample env s).cur_traces_num
             = s.cur_traces_num + 1)
           ↔ (U64 + num_frames env - s.start_frame_index) % U64 > 2)
        ∧ ((U64 + num_frames env - s.start_frame_index) % U64 > 2 →
            ((scout_record_sample env s).traces.getD s.cur_traces_num
                default).num_tracelines
              = toInt32 ((2 * U64 + num_frames env
                  - s.start_frame_index - 2) % U64))
        ∧ (s.start_frame_index ≤ num_frames env →
            (((scout_record_sample env s).cur_traces_num
                 = s.cur_traces_num + 1)
               ↔ num_frames env - s.start_frame_index > 2)
            ∧ (num_frames env - s.start_frame_index > 2 →
                ((scout_record_sample env s).traces.getD s.cur_traces_num
                    default).num_tracelines
                  = (num_frames env : Int)
                      - (s.start_frame_index : Int) - 2))) := by
  have hU : U64 = 18446744073709551616 := by norm_num [U64]
  have hnf : num_frames env ≤ 512 := by
    simp [num_frames, captured, List.length_take, BUF_SIZE]
  have hsfi' := hsfi
  rw [hU] at hsfi'
  constructor
  · intro hgc
    simp [scout_record_sample, hok, hgc]
  · intro hgc hcap
    have hlt : s.cur_traces_num < s.traces.length := by
      rw [hlen]; exact hcap
    rw [record_sample_open env s hok hgc hcap]
    by_cases hcond :
        (U64 + num_frames env - s.start_frame_index) % U64 > 2
    · rw [if_pos hcond]
      dsimp only
      rw [getD_set_self _ _ _ _ hlt]
      dsimp only
      refine ⟨by simp [hcond], fun _ => rfl, fun hle => ?_⟩
      have hcond' := hcond
      rw [hU] at hcond'
      have h2 : num_frames env - s.start_frame_index > 2 := by omega
      refine ⟨by simp [h2], fun _ => ?_⟩
      have harg : (2 * U64 + num_frames env
          - s.start_frame_index - 2) % U64
          = num_frames env - s.start_frame_index - 2 := by
        rw [hU]; omega
      rw [harg]
      simp only [toInt32]
      rw [if_pos (by omega)]
      have hsmall : (num_frames env - s.start_frame_index - 2) % 2 ^ 32
          = num_frames env - s.start_frame_index - 2 := by omega
      rw [hsmall]
      omega
    · rw [if_neg hcond]
      dsimp only
      refine ⟨iff_of_false (by omega) hcond,
              fun hc => absurd hc hcond, fun hle => ?_⟩
      have hcond' := hcond
      rw [hU] at hcond'
      have h2 : ¬ (num_frames env - s.start_frame_index > 2) := by omega
      exact ⟨iff_of_false (by omega) h2, fun hc => absurd hc h2⟩

/-- Witness for C1 (amended): a 6-frame capture with start_frame_index 0
on a registered, sampling-enabled thread is accepted with
num_lines = 6 − 0 − 2 = 4. -/
theorem C1_witness :
    (scout_record_sample sixFrameEnv wC1Th).cur_traces_num
        = wC1Th.cur_traces_num + 1
    ∧ ((scout_record_sample sixFrameEnv wC1Th).traces.getD
          wC1Th.cur_traces_num default).num_tracelines
        = (num_frames sixFrameEnv : Int)
            - (wC1Th.start_frame_index : Int) - 2 := by
  have h := C1_amended_accept sixFrameEnv wC1Th rfl (by decide)
    (by simp [wC1Th, init_thread_vars])
  obtain ⟨-, h2⟩ := h
  obtain ⟨-, -, hnice⟩ := h2 rfl (by decide)
  obtain ⟨hiff, hlines⟩ := hnice (by decide)
  exact ⟨hiff.mpr (by decide), hlines (by decide)⟩

/-- C3 counterexample: a capture attempt arriving at capacity while GC is
in progress (sampling enabled) stores nothing and leaves trace_count
unchanged, but it does increment a counter: skipped_during_gc goes up by
one, refuting the claim that such an attempt increments no counter. -/
theorem C3_counterexample :
    cexC3Th.cur_traces_num = MAX_TRACES
    ∧ (scout_record_sample gcEnv cexC3Th).cur_traces_num
        = cexC3Th.cur_traces_num
    ∧ (scout_record_sample gcEnv cexC3Th).skipped_in_gc
        = cexC3Th.skipped_in_gc + 1 := by
  refine ⟨rfl, ?_, ?_⟩ <;> decide

/-- C3 (amended): over every sequence of capture attempts trace_count
stays within 0..MAX_TRACES; an attempt arriving at capacity with GC idle
stores nothing, leaves trace_count unchanged and increments no counter
(the state is exactly unchanged); an attempt arriving at capacity during
GC still increments skipped_during_gc (the GC check precedes the
capacity check) and changes nothing else. -/
theorem C3_amended_bounds (envs : List Env) (env : Env) (s : ThreadState)
    (hcap : s.cur_traces_num ≤ MAX_TRACES) :
    (envs.foldl (fun st e => scout_record_sample e st)
        s).cur_traces_num ≤ MAX_TRACES
    ∧ (s.cur_traces_num = MAX_TRACES → env.during_gc = false →
        scout_record_sample env s = s)
    ∧ (s.cur_traces_num = MAX_TRACES → env.during_gc = true →
        s.ok_to_sample = true →
        scout_record_sample env s
          = { s with skipped_in_gc := s.skipped_in_gc + 1 }) := by
  refine ⟨foldl_record_cap envs s hcap, ?_, ?_⟩
  · intro hfull hgc
    by_cases hok : s.ok_to_sample = false
    · simp [scout_record_sample, hok]
    · simp [scout_record_sample, hok, hgc, hfull]
  · intro hfull hgc hok
    simp [scout_record_sample, hok, hgc]

/-- Witness for C3 (amended): one idle-GC attempt from capacity keeps the
count at MAX_TRACES and changes nothing. -/
theorem C3_witness :
    (([gcFreeEnv].foldl (fun st e => scout_record_sample e st)
        cexC3Th).cur_traces_num ≤ MAX_TRACES)
    ∧ scout_record_sample gcFreeEnv cexC3Th = cexC3Th := by
  have h := C3_amended_bounds [gcFreeEnv] gcFreeEnv cexC3Th (by decide)
  exact ⟨h.1, h.2.1 rfl rfl⟩

/-- C4 divergence witness: deregistering thread 3, which is absent from
the registry (only thread 7 is registered), returns true (not false) and
mutates state: it clears ok_to_sample, unregisters the GC keep-alive hook
and frees the traces allocation of the calling thread. -/
theorem C4_code_divergence :
    (rb_scout_remove_profiled_thread 3 cexC4Sys).1 = true
    ∧ (rb_scout_remove_profiled_thread 3 cexC4Sys).2.registry
        = cexC4Sys.registry
    ∧ cexC4Sys.th.ok_to_sample = true
    ∧ (rb_scout_remove_profiled_thread 3 cexC4Sys).2.th.ok_to_sample
        = false
    ∧ cexC4Sys.th.gc_hook_registered = true
    ∧ (rb_scout_remove_profiled_thread 3 cexC4Sys).2.th.gc_hook_registered
        = false
    ∧ cexC4Sys.th.traces_allocated = true
    ∧ (rb_scout_remove_profiled_thread 3 cexC4Sys).2.th.traces_allocated
        = false := by
  decide

/-- C5 counterexample: stop_sampling(reset=true), which is not the drain,
decreases trace_count (from 1 to 0), refuting the claim that drain is the
only operation of the public surface that decreases it. -/
theorem C5_counterexample :
    Op.stop_sampling true ≠ Op.profile_frames
    ∧ (step (Op.stop_sampling true) cexC5Sys).th.cur_traces_num
        < cexC5Sys.th.cur_traces_num := by
  refine ⟨by decide, by decide⟩

/-- C5 (amended): the drain (profile_frames), stop_sampling(reset=true)
and add_profiled_thread (which re-initializes the thread context) are the
only public operations that can decrease trace_count; every other
operation leaves it unchanged or increases it. -/
theorem C5_amended_shrink (st : SysState) (op : Op)
    (h : mayShrink op = false) :
    st.th.cur_traces_num ≤ (step op st).th.cur_traces_num := by
  cases op with
  | install =>
      by_cases hi : st.installed <;>
        simp [step, rb_scout_install_profiling, hi]
  | uninstall => simp [step, rb_scout_uninstall_profiling]
  | start =>
      by_cases hr : st.profiling_running <;>
        simp [step, rb_scout_start_profiling, hr]
  | add_profiled_thread tid => simp [mayShrink] at h
  | remove_profiled_thread tid =>
      simp [step, rb_scout_remove_profiled_thread, remove_profiled_thread]
  | start_sampling => simp [step, rb_scout_start_sampling]
  | stop_sampling r =>
      cases r with
      | false => simp [step, rb_scout_stop_sampling]
      | true => simp [mayShrink] at h
  | update_indexes f t => simp [step, rb_scout_update_indexes]
  | current_trace_index => exact le_rfl
  | current_frame_index => exact le_rfl
  | klass_for_frame => exact le_rfl
  | profile_frames => simp [mayShrink] at h

/-- Witness for C5 (amended): start_sampling never shrinks the buffer. -/
theorem C5_witness :
    cexC5Sys.th.cur_traces_num
      ≤ (step Op.start_sampling cexC5Sys).th.cur_traces_num :=
  C5_amended_shrink cexC5Sys Op.start_sampling (by decide)

/-- C9 divergence witness: no operation of the subsystem ever pushes an
exit-path cleanup handler (the pthread_cleanup_push in init_thread_vars
is commented out in the source), and a fresh process starts with none;
so a registered thread that terminates without explicitly calling
remove_profiled_thread runs no cleanup: the ThreadContext/TraceBuffer,
the keep-alive registration and the registry entry are all leaked. -/
theorem C9_no_cleanup_hook :
    initialSysState.th.cleanup_handlers_pushed = 0
    ∧ ∀ (op : Op) (st : SysState),
        (step op st).th.cleanup_handlers_pushed
          = st.th.cleanup_handlers_pushed := by
  refine ⟨rfl, ?_⟩
  intro op st
  cases op with
  | install =>
      by_cases hi : st.installed <;>
        simp [step, rb_scout_install_profiling, hi]
  | uninstall => rfl
  | start =>
      by_cases hr : st.profiling_running <;>
        simp [step, rb_scout_start_profiling, hr]
  | add_profiled_thread tid => rfl
  | remove_profiled_thread tid => rfl
  | start_sampling => rfl
  | stop_sampling r => cases r <;> rfl
  | update_indexes f t => rfl
  | current_trace_index => rfl
  | current_frame_index => rfl
  | klass_for_frame => rfl
  | profile_frames =>
      rcases profile_frames_state st.th with h | ⟨l, h⟩ <;> simp [step, h]

/-- C6: stop_sampling(reset=true) clears sampling and zeroes trace_count
and both skip counters; stop_sampling(reset=false) clears sampling only;
both return true. -/
theorem C6_stop_sampling (s : ThreadState) (reset : Bool) :
    (rb_scout_stop_sampling reset s).1 = true
    ∧ (rb_scout_stop_sampling reset s).2.ok_to_sample = false
    ∧ (reset = true →
        (rb_scout_stop_sampling reset s).2
          = { s with
                ok_to_sample := false
                cur_traces_num := 0
                skipped_in_gc := 0
                skipped_in_signal_handler := 0 })
    ∧ (reset = false →
        (rb_scout_stop_sampling reset s).2
          = { s with ok_to_sample := false }) := by
  cases reset <;> simp [rb_scout_stop_sampling]

/-- Witness for C6 on a state with nonzero count and counters. -/
theorem C6_witness :
    (rb_scout_stop_sampling true wC6Th).2
      = { wC6Th with
            ok_to_sample := false
            cur_traces_num := 0
            skipped_in_gc := 0
            skipped_in_signal_handler := 0 }
    ∧ (rb_scout_stop_sampling false wC6Th).2
        = { wC6Th with ok_to_sample := false } :=
  ⟨(C6_stop_sampling wC6Th true).2.2.1 rfl,
   (C6_stop_sampling wC6Th false).2.2.2 rfl⟩

/-- C7: the interrupt handler returns unchanged when sampling is off;
with the reentrancy guard held it increments skipped_reentrant by exactly
one and captures nothing; otherwise it runs SampleCapture with the guard
set and clears the guard afterwards. -/
theorem C7_handler (env : Env) (s : ThreadState) :
    (s.ok_to_sample = false →
       scout_profile_broadcast_signal_handler env s = s)
    ∧ (s.ok_to_sample = true → s.in_signal_handler = true →
        scout_profile_broadcast_signal_handler env s
          = { s with
                skipped_in_signal_handler :=
                  s.skipped_in_signal_handler + 1 })
    ∧ (s.ok_to_sample = true → s.in_signal_handler = false →
        scout_profile_broadcast_signal_handler env s
          = { scout_record_sample env { s with in_signal_handler := true }
                with in_signal_handler := false }) := by
  refine ⟨?_, ?_, ?_⟩ <;> intro h1 <;>
    simp [scout_profile_broadcast_signal_handler, h1]
  · intro h2; simp [h2]
  · intro h2; simp [h2]

/-- Witness for C7: all three handler branches at concrete states. -/
theorem C7_witness :
    scout_profile_broadcast_signal_handler gcFreeEnv baseTh = baseTh
    ∧ scout_profile_broadcast_signal_handler gcFreeEnv wC7Th
        = { wC7Th with
              skipped_in_signal_handler :=
                wC7Th.skipped_in_signal_handler + 1 }
    ∧ scout_profile_broadcast_signal_handler gcFreeEnv wC7bTh
        = { scout_record_sample gcFreeEnv
              { wC7bTh with in_signal_handler := true }
              with in_signal_handler := false } :=
  ⟨(C7_handler gcFreeEnv baseTh).1 rfl,
   (C7_handler gcFreeEnv wC7Th).2.1 rfl rfl,
   (C7_handler gcFreeEnv wC7bTh).2.2 rfl rfl⟩

/-- C8: the first install() from the uninstalled state returns true,
starts the timer thread, registers the interrupt handler and marks the
subsystem installed; any call with the subsystem already installed
returns false and changes no state. -/
theorem C8_install (st : SysState) :
    (st.installed = false →
       rb_scout_install_profiling st
         = (true, { st with
                      installed := true
                      timer_running := true
                      handler_registered := true }))
    ∧ (st.installed = true →
        rb_scout_install_profiling st = (false, st)) := by
  by_cases h : st.installed <;> simp [rb_scout_install_profiling, h]

/-- Witness for C8: install from process start, then a double install. -/
theorem C8_witness :
    rb_scout_install_profiling initialSysState
      = (true, { initialSysState with
                   installed := true
                   timer_running := true
                   handler_registered := true })
    ∧ rb_scout_install_profiling wC8Sys = (false, wC8Sys) :=
  ⟨(C8_install initialSysState).1 rfl, (C8_install wC8Sys).2 rfl⟩

/-- C10 counterexample: update_indexes(1, 5) on an empty buffer does
store start_trace_index = 5 unvalidated, but the subsequent drain does
not return an empty sequence with trace_count set to 5: rb_ary_new2
receives the wrapped difference −5 and raises ArgumentError before the
store, so the drain returns nothing and trace_count stays 0. -/
theorem C10_counterexample :
    ((rb_scout_update_indexes 1 5 baseTh).2.start_trace_index = 5)
    ∧ ((rb_scout_update_indexes 1 5 baseTh).2.cur_traces_num = 0)
    ∧ rb_scout_profile_frames (rb_scout_update_indexes 1 5 baseTh).2
        = Except.error () :=
  ⟨rfl, rfl, rfl⟩

/-- C10 (amended): update_indexes stores its arguments without any bounds
validation against trace_count or capacity; consequently, with any
NUM2INT-representable trace_index t above the current trace_count, a
subsequent drain takes the nonzero-difference branch with the wrapped
64-bit difference, passes a negative capacity to rb_ary_new2 and raises
ArgumentError before the store — it neither returns traces nor sets
trace_count to t. -/
theorem C10_update_indexes_drain (s : ThreadState) (f t : Nat)
    (ht : t < INT_BOUND) (hgt : s.cur_traces_num < t) :
    ((rb_scout_update_indexes f t s).2.start_trace_index = t)
    ∧ ((rb_scout_update_indexes f t s).2.start_frame_index = f)
    ∧ rb_scout_profile_frames (rb_scout_update_indexes f t s).2
        = Except.error () :=
  ⟨rfl, rfl, drain_raises (rb_scout_update_indexes f t s).2 ht hgt⟩

/-- Witness for C10 (amended): update_indexes(2, 7) over a one-trace
buffer, then a raising drain. -/
theorem C10_witness :
    ((rb_scout_update_indexes 2 7 wC10Th).2.start_trace_index = 7)
    ∧ ((rb_scout_update_indexes 2 7 wC10Th).2.start_frame_index = 2)
    ∧ rb_scout_profile_frames (rb_scout_update_indexes 2 7 wC10Th).2
        = Except.error () :=
  C10_update_indexes_drain wC10Th 2 7 (by decide) (by decide)

end ScoutStacks
